import Mathlib

/-!
# Verification of the boulder-I/O argument marshaler (`primer3/argdefaults.py`)

This file gives a shallow embedding, in Lean 4, of the boulder-I/O
marshaling subsystem of the `primer3-py` repository: the type formatter
`wrap` (with its helpers `_wrap_path_fix`, `wrap_list_of_quads`,
`_wrap_list_with_format`), the type parser `unwrap`, and the record codec
(`format_boulder_io`, `parse_boulder_io`, `parse_multirecord_boulder_io`),
all from `primer3/argdefaults.py`.

Modeling conventions:
* Python's dynamically typed values are embedded as the inductive `PyVal`.
  Python `list` and `tuple` are modeled by a single constructor `PyVal.seq`,
  because every branch of the source treats them identically
  (`isinstance(v, (list, tuple))`); consequently `str()`/`type()` of a
  sequence are rendered with the list spelling.
* Python `float` values are carried as exact rationals (`Rat`).  The float
  literal parser `pyFloat` models `float(s)` on decimal literals with an
  optional exponent; the special forms `inf`/`nan`/underscore separators are
  not modeled (none can reach the float branch of `unwrap`, which is guarded
  by `'.' in x`, in any input exercised here).  `floatRepr` renders a
  rational; Python's exact shortest-roundtrip float repr is not reproduced
  and no theorem below depends on its output.
* Byte strings are modeled by their UTF-8 decoding, i.e. `bytes.decode` and
  `str.encode` are the identity of the model; the record codec is stated on
  `String`.
* The filesystem consulted by `os.path.isdir` is an explicit parameter
  `isdir : String → Bool` mapping a (non-normalized) path string to whether
  it names an existing directory.
* Python exceptions are modeled by `Option`/`Except` results: a raised
  `ValueError`/`TypeError` is an `Except.error` carrying the message (the
  bare string `"TypeError"` stands for an argument-conversion `TypeError`,
  whose message text is never observed by the code).
-/

/-- Embedding of the Python values handled by the marshaler.  `seq` models
both `list` and `tuple` (the source treats the two identically). -/
inductive PyVal where
  | str : String → PyVal
  | int : Int → PyVal
  | float : Rat → PyVal
  | seq : List PyVal → PyVal

mutual

/-- Decidable equality on `PyVal` (written out because `deriving` does not
handle the nested occurrence of `List PyVal`). -/
def PyVal.decEq : (a b : PyVal) → Decidable (a = b)
  | .str a, .str b =>
    if h : a = b then .isTrue (by rw [h]) else .isFalse (by simp [h])
  | .int a, .int b =>
    if h : a = b then .isTrue (by rw [h]) else .isFalse (by simp [h])
  | .float a, .float b =>
    if h : a = b then .isTrue (by rw [h]) else .isFalse (by simp [h])
  | .seq a, .seq b =>
    match PyVal.decEqList a b with
    | .isTrue h => .isTrue (by rw [h])
    | .isFalse h => .isFalse (by simp [h])
  | .str _, .int _ => .isFalse nofun
  | .str _, .float _ => .isFalse nofun
  | .str _, .seq _ => .isFalse nofun
  | .int _, .str _ => .isFalse nofun
  | .int _, .float _ => .isFalse nofun
  | .int _, .seq _ => .isFalse nofun
  | .float _, .str _ => .isFalse nofun
  | .float _, .int _ => .isFalse nofun
  | .float _, .seq _ => .isFalse nofun
  | .seq _, .str _ => .isFalse nofun
  | .seq _, .int _ => .isFalse nofun
  | .seq _, .float _ => .isFalse nofun

/-- Decidable equality on lists of `PyVal`. -/
def PyVal.decEqList : (a b : List PyVal) → Decidable (a = b)
  | [], [] => .isTrue rfl
  | [], _ :: _ => .isFalse nofun
  | _ :: _, [] => .isFalse nofun
  | x :: xs, y :: ys =>
    match PyVal.decEq x y, PyVal.decEqList xs ys with
    | .isTrue h1, .isTrue h2 => .isTrue (by rw [h1, h2])
    | .isFalse h1, _ => .isFalse (by simp [h1])
    | _, .isFalse h2 => .isFalse (by simp [h2])

end

instance : DecidableEq PyVal := PyVal.decEq

/-- Decidable equality for `Except`-valued results. -/
def exceptDecEq [DecidableEq ε] [DecidableEq α] :
    (a b : Except ε α) → Decidable (a = b)
  | .error e1, .error e2 =>
    if h : e1 = e2 then .isTrue (by rw [h]) else .isFalse (by simp [h])
  | .ok x, .ok y =>
    if h : x = y then .isTrue (by rw [h]) else .isFalse (by simp [h])
  | .error _, .ok _ => .isFalse nofun
  | .ok _, .error _ => .isFalse nofun

instance [DecidableEq ε] [DecidableEq α] : DecidableEq (Except ε α) :=
  exceptDecEq

/-- An insertion-ordered string-keyed mapping, modeling a Python `dict`. -/
abbrev PyDict := List (String × PyVal)

/-- `Option`-valued `mapM` over a list, written out recursively so that
proofs can proceed by plain structural induction.  Models running a Python
generator/loop in which each element's conversion may raise. -/
def listMapOpt (f : α → Option β) : List α → Option (List β)
  | [] => some []
  | x :: xs =>
    match f x with
    | none => none
    | some y => (listMapOpt f xs).map (y :: ·)

/-- Python whitespace as recognized by `str.strip()` (ASCII range). -/
def isPySpace (c : Char) : Bool :=
  c == ' ' || c == '\t' || c == '\n' || c == '\r' || c == '\x0b' || c == '\x0c'

/-- Models Python `str.strip()`. -/
def pyStrip (s : String) : String :=
  ⟨((s.data.dropWhile isPySpace).reverse.dropWhile isPySpace).reverse⟩

/-- Models Python `str.split(sep)` for a one-character separator `c`:
every occurrence splits, empty fields are kept, `''.split(c) == ['']`. -/
def pySplitC (c : Char) (s : String) : List String :=
  (s.data.splitOn c).map fun l => ⟨l⟩

/-- Models Python `sep.join(parts)` for a one-character separator. -/
def pyJoinC (c : Char) (parts : List String) : String :=
  ⟨List.intercalate [c] (parts.map String.data)⟩

/-- Models Python `sep.join(parts)` for an arbitrary separator string. -/
def pyJoinStr (sep : String) (parts : List String) : String :=
  ⟨List.intercalate sep.data (parts.map String.data)⟩

/-- `true` iff every character is an ASCII decimal digit. -/
def allDigits (cs : List Char) : Bool := cs.all Char.isDigit

/-- Numeric value of a digit string (meaningful under `allDigits`). -/
def natOfDigits (cs : List Char) : Nat :=
  cs.foldl (fun a c => a * 10 + (c.toNat - 48)) 0

/-- A nonempty all-digit string, as a `Nat`. -/
def digitsVal (cs : List Char) : Option Nat :=
  if cs.isEmpty then none
  else if allDigits cs then some (natOfDigits cs) else none

/-- Models Python `int(s)` on string input: optional surrounding
whitespace, optional sign, then a nonempty digit run.  (Underscore digit
grouping is not modeled.)  `none` models a raised `ValueError`. -/
def pyInt (s : String) : Option Int :=
  match (pyStrip s).data with
  | '+' :: rest => (digitsVal rest).map Int.ofNat
  | '-' :: rest => (digitsVal rest).map fun n => -(n : Int)
  | cs => (digitsVal cs).map Int.ofNat

/-- Unsigned decimal mantissa `digits[.digits]` (at least one digit on one
side of the point), as an exact rational. -/
def pyFloatMant (cs : List Char) : Option Rat :=
  match cs.splitOn '.' with
  | [ip] => (digitsVal ip).map fun n => (n : Rat)
  | [ip, fp] =>
    if (ip.isEmpty && fp.isEmpty) || !allDigits ip || !allDigits fp then none
    else some ((natOfDigits ip : Rat) + (natOfDigits fp : Rat) / ((10 : Rat) ^ fp.length))
  | _ => none

/-- Optionally signed nonempty digit run (the exponent of a float literal). -/
def signedDigits (cs : List Char) : Option Int :=
  match cs with
  | '+' :: rest => (digitsVal rest).map Int.ofNat
  | '-' :: rest => (digitsVal rest).map fun n => -(n : Int)
  | _ => (digitsVal cs).map Int.ofNat

/-- Scale a rational by a signed power of ten. -/
def scalePow10 (q : Rat) (e : Int) : Rat :=
  if 0 ≤ e then q * (10 : Rat) ^ e.toNat else q / (10 : Rat) ^ (-e).toNat

/-- Models Python `float(s)` on decimal literals: optional surrounding
whitespace, optional sign, mantissa, optional `e`/`E` exponent.
(`inf`, `nan` and underscore grouping are not modeled.)  `none` models a
raised `ValueError`. -/
def pyFloat (s : String) : Option Rat :=
  let signed : List Char → Option Rat := fun cs =>
    let mant := cs.takeWhile fun c => !(c == 'e' || c == 'E')
    match cs.dropWhile fun c => !(c == 'e' || c == 'E') with
    | [] => pyFloatMant mant
    | _ :: ex => do scalePow10 (← pyFloatMant mant) (← signedDigits ex)
  match (pyStrip s).data with
  | '+' :: rest => signed rest
  | '-' :: rest => (signed rest).map Neg.neg
  | cs => signed cs

/-- Decimal digits of `n`, most significant first (`natDigits 0 = "0"`). -/
def natDigitsAux : Nat → Nat → List Char
  | 0, _ => []
  | fuel + 1, n =>
    if n < 10 then [Char.ofNat (48 + n)]
    else natDigitsAux fuel (n / 10) ++ [Char.ofNat (48 + n % 10)]

/-- Digit list of a natural number. -/
def natDigits (n : Nat) : List Char := natDigitsAux (n + 1) n

/-- Models Python `str(i)` for an integer `i`. -/
def pyStr (n : Int) : String :=
  if n < 0 then ⟨'-' :: natDigits (-n).toNat⟩ else ⟨natDigits n.toNat⟩

/-- Rendering of a rational standing in for a Python float.  Python's
shortest-roundtrip float repr is not reproduced; no claim depends on it. -/
def floatRepr (q : Rat) : String :=
  if q.den = 1 then pyStr q.num ++ ".0"
  else pyStr q.num ++ "/" ++ pyStr q.den

mutual

/-- Models Python `repr(v)` to the extent the marshaler can observe it
(string escaping inside `repr` of a `str` is not modeled). -/
def pyReprOf : PyVal → String
  | .str s => "'" ++ s ++ "'"
  | .int n => pyStr n
  | .float q => floatRepr q
  | .seq l => "[" ++ pyReprElems l ++ "]"

/-- Comma-separated element reprs of a sequence. -/
def pyReprElems : List PyVal → String
  | [] => ""
  | [x] => pyReprOf x
  | x :: y :: xs => pyReprOf x ++ ", " ++ pyReprElems (y :: xs)

end

/-- Models Python `str(v)` (as used by the f-string `f'{k}={rv}'`). -/
def pyStrOf : PyVal → String
  | .str s => s
  | v => pyReprOf v

/-- Models Python `type(v)` as rendered inside an f-string.  `seq` prints
with the `list` spelling (list/tuple are collapsed in this model). -/
def pyTypeOf : PyVal → String
  | .str _ => "<class 'str'>"
  | .int _ => "<class 'int'>"
  | .float _ => "<class 'float'>"
  | .seq _ => "<class 'list'>"

/-! ## The tag tables (`argdefaults.py` lines 66-85) -/

/-- Keys whose sequence values format as space-separated `%d,%d` intervals. -/
def TAGS_INTERVAL_LIST : List String :=
  ["SEQUENCE_INCLUDED_REGION", "SEQUENCE_TARGET", "SEQUENCE_EXCLUDED_REGION",
   "SEQUENCE_INTERNAL_EXCLUDED_REGION"]

/-- Keys whose sequence values format as space-separated `%d-%d` ranges. -/
def TAGS_SIZE_RANGE_LIST : List String := ["PRIMER_PRODUCT_SIZE_RANGE"]

/-- Keys formatted as a semicolon-separated list of integer quadruples. -/
def TAGS_SEMI_QUAD : List String := ["SEQUENCE_PRIMER_PAIR_OK_REGION_LIST"]

/-- Keys whose scalar value is a filesystem path to be resolved. -/
def TAGS_PATH_FIX : List String :=
  ["PRIMER_THERMODYNAMIC_PARAMETERS_PATH", "PRIMER_MASK_KMERLIST_PATH"]

/-- Keys that may appear on several lines of one record and accumulate. -/
def TAGS_APPEND : List String := ["SEQUENCE_EXCLUDED_REGION"]

/-- Stand-in for the runtime install directory `LOCAL_DIR`
(`os.path.dirname(os.path.realpath(__file__))`); its concrete value is
environment-dependent and no theorem depends on it. -/
def LOCAL_DIR : String := "/opt/primer3"

/-- Models `os.path.join(a, b)` for POSIX paths (the only uses join a
directory constant with a relative component). -/
def pyPathJoin (a b : String) : String :=
  if b.data.head? = some '/' then b
  else if a.data.getLast? = none || a.data.getLast? = some '/' then a ++ b
  else a ++ "/" ++ b

/-- `LIBPRIMER3_DIR = os.path.join(LOCAL_DIR, 'src', 'libprimer3')`. -/
def LIBPRIMER3_DIR : String := pyPathJoin (pyPathJoin LOCAL_DIR "src") "libprimer3"

/-- Python slice `s[a:b]` with nonnegative bounds. -/
def pySlice (s : String) (a b : Nat) : String := ⟨(s.data.take b).drop a⟩

/-- Python slice `s[a:-1]` (drop the first `a` and the last character). -/
def pySliceDropLast (s : String) (a : Nat) : String := ⟨(s.data.drop a).dropLast⟩

/-- Embeds `_wrap_path_fix(k, v)` (`argdefaults.py` lines 91-117).
`isdir` is the ambient filesystem.  Note the source compares the
one-character slice `v[0:1]` with `'./'` and the two-character slice
`v[0:2]` with `'../'`; the model reproduces those comparisons verbatim. -/
def wrapPathFix (isdir : String → Bool) (k v : String) : Except String String :=
  let x :=
    if !(isdir v) then
      if pySlice v 0 1 = "./" then pyPathJoin LIBPRIMER3_DIR (pySliceDropLast v 2)
      else if pySlice v 0 2 = "../" then pyPathJoin LIBPRIMER3_DIR (pySliceDropLast v 3)
      else pyPathJoin LIBPRIMER3_DIR v
    else v
  if !(isdir x) then .error (k ++ ": path " ++ x ++ " not found")
  else .ok x

/-! ## `wrap_list_of_quads` (lines 120-159) -/

/-- One application of the slot renderer `int_to_str` /
`str(x) if x > -1 else ''`: numbers compare with `-1` and render; any
other operand raises `TypeError` (`none`). -/
def quadNumStr : PyVal → Option String
  | .int n => some (if n > -1 then pyStr n else "")
  | .float q => some (if q > -1 then floatRepr q else "")
  | _ => none

/-- One quadruple in the `try` branch: `','.join(map(int_to_str, quad))`.
A sequence maps its elements; a string iterates its characters (each a
1-character string, so any nonempty string raises); a number is not
iterable and raises. -/
def quadTry : PyVal → Option String
  | .seq es => (listMapOpt quadNumStr es).map (pyJoinC ',')
  | .str s => if s = "" then some "" else none
  | _ => none

/-- Embeds `wrap_list_of_quads(v)` (lines 120-159): first the `try` branch
(`' ; '.join` of per-quad comma joins); on its `TypeError` the flat branch
(`','.join(str(x) if x > -1 else '' for x in v)`), whose own `TypeError`
propagates (modeled as `.error`). -/
def wrap_list_of_quads (v : List PyVal) : Except String String :=
  match listMapOpt quadTry v with
  | some parts => .ok (pyJoinStr " ; " parts)
  | none =>
    match listMapOpt quadNumStr v with
    | some parts => .ok (pyJoinC ',' parts)
    | none => .error "TypeError"

/-! ## `_wrap_list_with_format` (lines 162-178), for `'%d,%d'`/`'%d-%d'` -/

/-- `'%d' % x`: integers print; floats truncate toward zero; anything else
raises `TypeError`. -/
def fmtD : PyVal → Option String
  | .int n => some (pyStr n)
  | .float q => some (pyStr (if q < 0 then -((-q).floor) else q.floor))
  | _ => none

/-- `('%d' + c + '%d') % tuple(args)`: exactly two `%d`-formattable
arguments, else `TypeError`. -/
def fmtPair (c : Char) (args : List PyVal) : Option String :=
  match args with
  | [a, b] => do pure ((← fmtD a) ++ ⟨[c]⟩ ++ (← fmtD b))
  | _ => none

/-- Models Python `tuple(x)`: a sequence yields its elements, a string its
characters (as 1-character strings); numbers are not iterable. -/
def pyTupleOf : PyVal → Option (List PyVal)
  | .seq l => some l
  | .str s => some (s.data.map fun ch => .str ⟨[ch]⟩)
  | _ => none

/-- Embeds `_wrap_list_with_format(v, fmt, sep=' ')` where `fmt` is
`'%d' + c + '%d'` (the two formats used are `'%d,%d'` and `'%d-%d'`):
try `fmt % tuple(v)`; on `TypeError` join per-element formats with `' '`,
whose own `TypeError` propagates. -/
def wrapListWithFormat (v : List PyVal) (c : Char) : Except String String :=
  match fmtPair c v with
  | some s => .ok s
  | none =>
    match listMapOpt (fun x => (pyTupleOf x).bind (fmtPair c)) v with
    | some parts => .ok (pyJoinC ' ' parts)
    | none => .error "TypeError"

/-! ## `wrap` (lines 181-228) -/

/-- Embeds `wrap(k, v)` (lines 181-228); the returned key of the source's
`(k, rv)` pair is `k` unchanged and is omitted.  `isdir` is the ambient
filesystem used by the path-fix branch. -/
def wrap (isdir : String → Bool) (k : String) (v : PyVal) : Except String PyVal :=
  match v with
  | .seq l =>
    if l.length = 0 then .ok (.str "")
    else if TAGS_SEMI_QUAD.contains k then (wrap_list_of_quads l).map .str
    else if TAGS_INTERVAL_LIST.contains k then (wrapListWithFormat l ',').map .str
    else if TAGS_SIZE_RANGE_LIST.contains k then (wrapListWithFormat l '-').map .str
    else
      match l with
      | .seq _ :: _ => (wrapListWithFormat l '-').map .str
      | .int _ :: _ => .ok (.str (pyJoinC ' ' (l.map pyStrOf)))
      | _ => .ok (.seq l)
  | .str s =>
    if TAGS_PATH_FIX.contains k then (wrapPathFix isdir k s).map .str else .ok v
  | _ =>
    if TAGS_PATH_FIX.contains k then .error "TypeError" else .ok v

/-! ## `unwrap` (lines 231-294) -/

/-- `cond_int(s)`: `-1` for the empty field, else `int(s)`. -/
def condInt (s : String) : Option Int :=
  if s = "" then some (-1) else pyInt s

/-- Cascade step 1: `float(x) if '.' in x else int(x)`. -/
def unwrapLam1 (x : String) : Option PyVal :=
  if x.data.contains '.' then (pyFloat x).map .float else (pyInt x).map .int

/-- Cascade steps 2-4: `tuple(int(s) for s in x.split(c))`. -/
def unwrapLamSplitInt (c : Char) (x : String) : Option PyVal :=
  (listMapOpt pyInt (pySplitC c x)).map fun l => .seq (l.map .int)

/-- Cascade step 5: space-split of dash-split integer tuples. -/
def unwrapLam5 (x : String) : Option PyVal :=
  (listMapOpt (fun s => listMapOpt pyInt (pySplitC '-' s)) (pySplitC ' ' x)).map
    fun ll => .seq (ll.map fun l => .seq (l.map .int))

/-- Cascade step 6: space-split of comma-split `cond_int` tuples. -/
def unwrapLam6 (x : String) : Option PyVal :=
  (listMapOpt (fun s => listMapOpt condInt (pySplitC ',' s)) (pySplitC ' ' x)).map
    fun ll => .seq (ll.map fun l => .seq (l.map .int))

/-- Cascade step 7: semicolon-split of stripped comma-split `cond_int`
tuples. -/
def unwrapLam7 (x : String) : Option PyVal :=
  (listMapOpt (fun s => listMapOpt condInt (pySplitC ',' (pyStrip s)))
      (pySplitC ';' x)).map
    fun ll => .seq (ll.map fun l => .seq (l.map .int))

/-- Embeds the value computation of `unwrap(k, v)` (lines 231-294): the
seven parse attempts in order, first success wins, the raw string is the
terminal fallback. -/
def unwrapValue (v : String) : PyVal :=
  match unwrapLam1 v with
  | some rv => rv
  | none =>
  match unwrapLamSplitInt ' ' v with
  | some rv => rv
  | none =>
  match unwrapLamSplitInt '-' v with
  | some rv => rv
  | none =>
  match unwrapLamSplitInt ',' v with
  | some rv => rv
  | none =>
  match unwrapLam5 v with
  | some rv => rv
  | none =>
  match unwrapLam6 v with
  | some rv => rv
  | none =>
  match unwrapLam7 v with
  | some rv => rv
  | none => .str v

/-- Embeds `unwrap(k, v)` (the source returns the key unchanged next to
the converted value). -/
def unwrap (k v : String) : String × PyVal := (k, unwrapValue v)

/-! ## Record codec (lines 298-376) -/

/-- Lines produced for one `(k, v)` entry of the argument mapping inside
`format_boulder_io`'s `try` block: a repeatable key iterates its value and
wraps each element (iterating a number raises `TypeError`); any other key
wraps once.  Each line is `f'{k}={rv}\n'`.  The error value records only
that a `ValueError`/`TypeError` escaped `wrap` (its message is replaced by
the caller). -/
def formatEntry (isdir : String → Bool) (k : String) (v : PyVal) :
    Except String (List String) :=
  if TAGS_APPEND.contains k then
    match pyTupleOf v with
    | none => .error "TypeError"
    | some svs =>
      match listMapOpt (fun sv => (wrap isdir k sv).toOption) svs with
      | none => .error "TypeError"
      | some rvs => .ok (rvs.map fun rv => k ++ "=" ++ pyStrOf rv ++ "\n")
  else
    (wrap isdir k v).map fun rv => [k ++ "=" ++ pyStrOf rv ++ "\n"]

/-- The `transform error` message raised by `format_boulder_io` when
formatting of key `k` with value `v` fails. -/
def transformMsg (k : String) (v : PyVal) : String :=
  "transform error: " ++ k ++ " | " ++ pyStrOf v ++ " | " ++ pyTypeOf v

/-- The per-entry loop of `format_boulder_io`: entries are processed in
order and the first failure aborts with its `transform error` message. -/
def formatLines (isdir : String → Bool) : List (String × PyVal) →
    Except String (List String)
  | [] => .ok []
  | (k, v) :: rest =>
    match formatEntry isdir k v with
    | .error _ => .error (transformMsg k v)
    | .ok ls => (formatLines isdir rest).map (ls ++ ·)

/-- Embeds `format_boulder_io(p3_args)` (lines 298-321).  The returned
string is the UTF-8 decoding of the byte string the source produces (byte
encoding is the identity of this model). -/
def format_boulder_io (isdir : String → Bool) (p3_args : List (String × PyVal)) :
    Except String String :=
  (formatLines isdir p3_args).map fun ls => String.join ls ++ "=\n"

/-- `dict` assignment `d[k] = v` on the insertion-ordered model: replace
in place if present, else append. -/
def dictSet (d : PyDict) (k : String) (v : PyVal) : PyDict :=
  match d with
  | [] => [(k, v)]
  | (k', v') :: rest =>
    if k' = k then (k, v) :: rest else (k', v') :: dictSet rest k v

/-- `dict` lookup. -/
def dictGet (d : PyDict) (k : String) : Option PyVal :=
  match d with
  | [] => none
  | (k', v') :: rest => if k' = k then some v' else dictGet rest k

/-- One iteration of the record-parsing loop shared by `parse_boulder_io`
and `parse_multirecord_boulder_io` (their loop bodies are identical):
`k, v = line.strip().split('=')` — only a split into exactly two parts
binds (otherwise the unpacking `ValueError` is silently passed); a
repeatable key appends `unwrap`'s value to its accumulating list (created
on first sight), any other key stores `unwrap`'s value. -/
def parseLine (d : PyDict) (line : String) : PyDict :=
  match pySplitC '=' (pyStrip line) with
  | [k, v] =>
    if TAGS_APPEND.contains k then
      let prev := match dictGet d k with
        | some (.seq l) => l
        | _ => []  -- unreachable: repeatable keys are only ever stored as lists
      dictSet d k (.seq (prev ++ [unwrapValue v]))
    else dictSet d k (unwrapValue v)
  | _ => d

/-- The shared record-parsing loop over a list of lines. -/
def parseRecordLines (lines : List String) : PyDict :=
  lines.foldl parseLine []

/-- Embeds `parse_boulder_io(boulder_bytes)` (lines 324-346); the argument
is the UTF-8 decoding of the input bytes. -/
def parse_boulder_io (s : String) : PyDict :=
  parseRecordLines (pySplitC '\n' s)

/-- Does a record separator (regex `=\r?\n`) match at the head of `cs`? -/
def isRecSepAt (cs : List Char) : Bool :=
  match cs with
  | c1 :: c2 :: rest =>
    c1 = '=' && (c2 = '\n' || (c2 = '\r' && rest.head? = some '\n'))
  | _ => false

/-- The scanner of `re.split('=\r?\n', s)`: left-to-right, non-overlapping
matches of `=` followed by `\n` or `\r\n` split the character stream. -/
def splitRecordsGo : List Char → List (List Char)
  | [] => [[]]
  | '=' :: '\n' :: rest => [] :: splitRecordsGo rest
  | '=' :: '\r' :: '\n' :: rest => [] :: splitRecordsGo rest
  | c :: rest => (splitRecordsGo rest).modifyHead (c :: ·)

/-- Embeds `re.split('=\r?\n', boulder_str)`. -/
def splitRecords (s : String) : List String :=
  (splitRecordsGo s.data).map fun l => ⟨l⟩

/-- Embeds `parse_multirecord_boulder_io(boulder_str)` (lines 349-376):
split on the regex `=\r?\n`, skip empty chunks, run the shared
record-parsing loop on each chunk's lines, in order. -/
def parse_multirecord_boulder_io (s : String) : List PyDict :=
  (splitRecords s).filterMap fun record =>
    if record = "" then none
    else some (parseRecordLines (pySplitC '\n' record))

/-- No record separator (`=` followed by `\n` or `\r\n`) occurs anywhere
inside `cs` (also taking into account that, in the inputs where this
predicate is used, the character following `cs` is `'='`). -/
def noRecSep : List Char → Bool
  | [] => true
  | c :: rest => !isRecSepAt (c :: rest) && noRecSep rest

/-- A filesystem with no directories (the path-fix branch is irrelevant to
the keys exercised under it). -/
def noDirs : String → Bool := fun _ => false

/-- Every character is outside the boulder metacharacters: not `'='`, not
`'\n'`, and not whitespace.  Lines built from such strings survive
`strip` and split unambiguously. -/
def cleanChars (s : String) : Bool :=
  s.data.all fun ch => !(ch = '=') && !(ch = '\n') && !(isPySpace ch)

/-! ## Helper lemmas -/

/-- `String.append` acts as list append on the character data. -/
theorem string_data_append (a b : String) : (a ++ b).data = a.data ++ b.data := by
  cases a; cases b; rfl

/-- Splitting `l1 ++ c :: l2` on `c` detaches `l1` when `c ∉ l1`. -/
theorem splitOn_append_sep {c : Char} {l1 : List Char} (l2 : List Char)
    (h : ∀ x ∈ l1, x ≠ c) :
    (l1 ++ c :: l2).splitOn c = l1 :: l2.splitOn c := by
  apply List.splitOnP_first
  · intro x hx
    simpa using h x hx
  · simp

/-- Splitting a list not containing `c` yields the singleton chunk. -/
theorem splitOn_no_sep {c : Char} {l : List Char} (h : ∀ x ∈ l, x ≠ c) :
    l.splitOn c = [l] := by
  apply List.splitOnP_eq_single
  intro x hx
  simpa using h x hx

/-- `strip` of a string with no whitespace characters is the identity. -/
theorem pyStrip_eq_self {s : String} (h : ∀ ch ∈ s.data, isPySpace ch = false) :
    pyStrip s = s := by
  have h1 : s.data.dropWhile isPySpace = s.data := by
    cases hs : s.data with
    | nil => simp
    | cons a l =>
      have ha : isPySpace a = false := h a (by rw [hs]; exact List.mem_cons_self a l)
      simp [List.dropWhile_cons, ha]
  have h2 : ∀ ch ∈ s.data.reverse, isPySpace ch = false := by
    intro ch hch
    exact h ch (List.mem_reverse.mp hch)
  have h3 : s.data.reverse.dropWhile isPySpace = s.data.reverse := by
    cases hs : s.data.reverse with
    | nil => simp
    | cons a l =>
      have ha : isPySpace a = false := h2 a (by rw [hs]; exact List.mem_cons_self a l)
      simp [List.dropWhile_cons, ha]
  unfold pyStrip
  rw [h1, h3, List.reverse_reverse]

/-- Unfolding of `cleanChars` into its per-character content. -/
theorem cleanChars_spec {s : String} (h : cleanChars s = true) :
    ∀ ch ∈ s.data, ch ≠ '=' ∧ ch ≠ '\n' ∧ isPySpace ch = false := by
  intro ch hch
  have := (List.all_eq_true.mp h) ch hch
  simp only [Bool.and_eq_true, Bool.not_eq_true', decide_eq_false_iff_not] at this
  exact ⟨this.1.1, this.1.2, this.2⟩

/-- `listMapOpt` respects pointwise-equal element functions. -/
theorem listMapOpt_congr {f g : α → Option β} (l : List α)
    (h : ∀ x ∈ l, f x = g x) : listMapOpt f l = listMapOpt g l := by
  induction l with
  | nil => rfl
  | cons a l ih =>
    simp only [listMapOpt]
    rw [h a (List.mem_cons_self a l), ih fun x hx => h x (List.mem_cons_of_mem a hx)]

/-- `listMapOpt` over a mapped list fuses the maps. -/
theorem listMapOpt_map (f : β → Option γ) (g : α → β) (l : List α) :
    listMapOpt f (l.map g) = listMapOpt (fun x => f (g x)) l := by
  induction l with
  | nil => rfl
  | cons a l ih => simp only [List.map, listMapOpt, ih]

/-- Clamping every integer `≤ -1` to the `-1` sentinel does not change how
a quad slot renders. -/
theorem quadNumStr_norm (n : Int) :
    quadNumStr (.int (if n ≤ -1 then -1 else n)) = quadNumStr (.int n) := by
  by_cases h : n ≤ -1
  · have h1 : ¬((-1 : Int) > -1) := by omega
    have h2 : ¬(n > -1) := by omega
    simp [quadNumStr, h, h1, h2]
  · simp [h]

/-- A stripped line splitting into exactly two parts on `'='`, under a
non-repeatable key, stores the unwrapped value. -/
theorem parseLine_eq_two {d : PyDict} {s k v : String}
    (hs : pySplitC '=' (pyStrip s) = [k, v])
    (hk : TAGS_APPEND.contains k = false) :
    parseLine d s = dictSet d k (unwrapValue v) := by
  have hc : ¬(TAGS_APPEND.contains k = true) := by
    rw [hk]; exact Bool.false_ne_true
  have h2 : parseLine d s =
      if TAGS_APPEND.contains k = true then
        dictSet d k (PyVal.seq ((match dictGet d k with
          | some (PyVal.seq l) => l
          | _ => []) ++ [unwrapValue v]))
      else dictSet d k (unwrapValue v) := by
    unfold parseLine
    rw [hs]
  rw [h2, if_neg hc]

/-- First sighting of a repeatable key starts its accumulator list. -/
theorem parseLine_append_new {d : PyDict} {s k v : String}
    (hs : pySplitC '=' (pyStrip s) = [k, v])
    (hk : TAGS_APPEND.contains k = true) (hg : dictGet d k = none) :
    parseLine d s = dictSet d k (.seq [unwrapValue v]) := by
  have h2 : parseLine d s =
      if TAGS_APPEND.contains k = true then
        dictSet d k (PyVal.seq ((match dictGet d k with
          | some (PyVal.seq l) => l
          | _ => []) ++ [unwrapValue v]))
      else dictSet d k (unwrapValue v) := by
    unfold parseLine
    rw [hs]
  rw [h2, if_pos hk, hg]
  rfl

/-- A later sighting of a repeatable key appends to its accumulator. -/
theorem parseLine_append_more {d : PyDict} {s k v : String} {l : List PyVal}
    (hs : pySplitC '=' (pyStrip s) = [k, v])
    (hk : TAGS_APPEND.contains k = true) (hg : dictGet d k = some (.seq l)) :
    parseLine d s = dictSet d k (.seq (l ++ [unwrapValue v])) := by
  have h2 : parseLine d s =
      if TAGS_APPEND.contains k = true then
        dictSet d k (PyVal.seq ((match dictGet d k with
          | some (PyVal.seq l) => l
          | _ => []) ++ [unwrapValue v]))
      else dictSet d k (unwrapValue v) := by
    unfold parseLine
    rw [hs]
  rw [h2, if_pos hk, hg]

/-- A line that does not split into exactly two parts is silently skipped. -/
theorem parseLine_skip {d : PyDict} {s : String}
    (h : (pySplitC '=' (pyStrip s)).length ≠ 2) : parseLine d s = d := by
  unfold parseLine
  rcases hsp : pySplitC '=' (pyStrip s) with _ | ⟨a, _ | ⟨b, _ | ⟨c, l⟩⟩⟩
  · rfl
  · rfl
  · rw [hsp] at h; simp at h
  · rfl

/-- Whether a separator matches at a position is unchanged by appending a
continuation that starts with `'='` (which can complete no separator). -/
theorem isRecSepAt_append_eq (c : Char) (r t : List Char)
    (ht : t.head? = some '=') :
    isRecSepAt (c :: (r ++ t)) = isRecSepAt (c :: r) := by
  match r with
  | [] =>
    match t, ht with
    | x :: t', ht =>
      have hx : x = '=' := by simpa using ht
      subst hx
      simp [isRecSepAt]
  | [a] =>
    match t, ht with
    | x :: t', ht =>
      have hx : x = '=' := by simpa using ht
      subst hx
      simp [isRecSepAt]
  | a :: b :: r'' => rfl

/-- Unfolding of the scanner at a non-separator position. -/
theorem splitRecordsGo_other (c : Char) (rest : List Char)
    (h : isRecSepAt (c :: rest) = false) :
    splitRecordsGo (c :: rest) = (splitRecordsGo rest).modifyHead (c :: ·) := by
  rw [splitRecordsGo.eq_def]
  split
  · simp_all
  · simp_all [isRecSepAt]
  · simp_all [isRecSepAt]
  · rename_i heq
    cases heq
    rfl

/-- The scanner detaches a separator-free prefix at its closing `=`+`\n`. -/
theorem splitRecordsGo_append (r rest : List Char) (h : noRecSep r = true) :
    splitRecordsGo (r ++ '=' :: '\n' :: rest) = r :: splitRecordsGo rest := by
  induction r with
  | nil => rfl
  | cons c r' ih =>
    have hns : isRecSepAt (c :: r') = false ∧ noRecSep r' = true := by
      have h2 := h
      unfold noRecSep at h2
      simp only [Bool.and_eq_true, Bool.not_eq_true'] at h2
      exact h2
    have hsep : isRecSepAt (c :: (r' ++ '=' :: '\n' :: rest)) = false := by
      rw [isRecSepAt_append_eq c r' ('=' :: '\n' :: rest) rfl]
      exact hns.1
    rw [List.cons_append, splitRecordsGo_other _ _ hsep, ih hns.2]
    rfl

/-- `re.split('=\r?\n', ·)` on a two-record stream with separator-free
record bodies. -/
theorem splitRecords_two (r1 r2 : String) (h1 : noRecSep r1.data = true)
    (h2 : noRecSep r2.data = true) :
    splitRecords (r1 ++ "=\n" ++ r2 ++ "=\n") = [r1, r2, ""] := by
  unfold splitRecords
  have hd : (r1 ++ "=\n" ++ r2 ++ "=\n").data
      = r1.data ++ '=' :: '\n' :: (r2.data ++ '=' :: '\n' :: ([] : List Char)) := by
    simp [string_data_append]
  rw [hd, splitRecordsGo_append _ _ h1, splitRecordsGo_append _ _ h2]
  rfl

/-- The two halves of a clean `key=value` line split back apart. -/
theorem pySplitC_line (k v : String) (hk : cleanChars k = true)
    (hv : cleanChars v = true) :
    pySplitC '=' (pyStrip ⟨k.data ++ '=' :: v.data⟩) = [k, v] := by
  have hstrip : pyStrip ⟨k.data ++ '=' :: v.data⟩ = ⟨k.data ++ '=' :: v.data⟩ := by
    apply pyStrip_eq_self
    intro ch hch
    rcases List.mem_append.mp hch with h | h
    · exact ((cleanChars_spec hk) ch h).2.2
    · rcases List.mem_cons.mp h with h | h
      · subst h; decide
      · exact ((cleanChars_spec hv) ch h).2.2
  rw [hstrip]
  simp only [pySplitC]
  rw [splitOn_append_sep v.data fun x hx => ((cleanChars_spec hk) x hx).1,
    splitOn_no_sep fun x hx => ((cleanChars_spec hv) x hx).1]
  rfl

/-- The empty line is silently skipped. -/
theorem parseLine_empty (d : PyDict) : parseLine d "" = d := rfl

/-- An error escaping the formatting loop is the `transform error` of some
entry of the argument mapping whose formatting failed. -/
theorem formatLines_error_spec (isdir : String → Bool)
    (args : List (String × PyVal)) (e : String)
    (h : formatLines isdir args = .error e) :
    ∃ p ∈ args, (formatEntry isdir p.1 p.2).isOk = false
      ∧ e = transformMsg p.1 p.2 := by
  induction args with
  | nil => simp [formatLines] at h
  | cons kv rest ih =>
    obtain ⟨k, v⟩ := kv
    unfold formatLines at h
    cases hfe : formatEntry isdir k v with
    | error err =>
      rw [hfe] at h
      refine ⟨(k, v), List.mem_cons_self _ _, by rw [hfe]; rfl, ?_⟩
      exact (Except.error.inj h).symm
    | ok ls =>
      rw [hfe] at h
      cases hrest : formatLines isdir rest with
      | error e' =>
        rw [hrest] at h
        have he : e' = e := Except.error.inj h
        obtain ⟨p, hp, hfail, hmsg⟩ := ih (he ▸ hrest)
        exact ⟨p, List.mem_cons_of_mem _ hp, hfail, hmsg⟩
      | ok ls' =>
        rw [hrest] at h
        exact absurd h nofun

/-! ## Claim theorems -/

/-- C1: for every key classification (interval list, size-range list,
quadruple list, plain integer list, scalar), `unwrap` applied to `wrap`'s
output returns the original value on a representative value; in
particular the quadruple list `((1,2,3,4),(5,6,-1,-1))` wraps to
`'1,2,3,4 ; 5,6,,'` and unwraps back to itself. -/
theorem unwrap_wrap_roundtrip :
    (wrap noDirs "SEQUENCE_TARGET" (PyVal.seq [.int 5, .int 7])
        = .ok (.str "5,7")
      ∧ unwrapValue "5,7" = PyVal.seq [.int 5, .int 7])
    ∧ (wrap noDirs "PRIMER_PRODUCT_SIZE_RANGE" (PyVal.seq [.int 7, .int 11])
        = .ok (.str "7-11")
      ∧ unwrapValue "7-11" = PyVal.seq [.int 7, .int 11])
    ∧ (wrap noDirs "SEQUENCE_PRIMER_PAIR_OK_REGION_LIST"
          (PyVal.seq [.seq [.int 1, .int 2, .int 3, .int 4],
                      .seq [.int 5, .int 6, .int (-1), .int (-1)]])
        = .ok (.str "1,2,3,4 ; 5,6,,")
      ∧ unwrapValue "1,2,3,4 ; 5,6,," =
          PyVal.seq [.seq [.int 1, .int 2, .int 3, .int 4],
                     .seq [.int 5, .int 6, .int (-1), .int (-1)]])
    ∧ (wrap noDirs "SEQUENCE_QUALITY"
          (PyVal.seq [.int 0, .int 1, .int 2, .int 3, .int 4])
        = .ok (.str "0 1 2 3 4")
      ∧ unwrapValue "0 1 2 3 4" =
          PyVal.seq [.int 0, .int 1, .int 2, .int 3, .int 4])
    ∧ (wrap noDirs "SEQUENCE_TEMPLATE" (PyVal.str "ATCG")
        = .ok (.str "ATCG")
      ∧ unwrapValue "ATCG" = PyVal.str "ATCG") := by
  refine ⟨⟨by decide, by decide⟩, ⟨by decide, by decide⟩, ⟨by decide, by decide⟩,
    ⟨by decide, by decide⟩, ⟨by decide, by decide⟩⟩

/-- C5: `unwrap` tries integer parsing before float parsing — `"42"`
yields the integer `42` (not a float), `"1.23"` yields the float `1.23`,
and `"ATCG"`, matched by no cascade step, falls through to the string
unchanged. -/
theorem unwrap_type_priority :
    unwrapValue "42" = PyVal.int 42
    ∧ unwrapValue "1.23" = PyVal.float ((123 : Rat) / 100)
    ∧ (∀ q : Rat, unwrapValue "42" ≠ PyVal.float q)
    ∧ unwrapValue "ATCG" = PyVal.str "ATCG" := by
  refine ⟨by decide, ?hfloat, ?hnotfloat, by decide⟩
  case hnotfloat =>
    intro q
    rw [show unwrapValue "42" = PyVal.int 42 from by decide]
    exact nofun
  case hfloat =>
    have h : unwrapValue "1.23" =
        PyVal.float ((natOfDigits ['1'] : Rat) +
          (natOfDigits ['2', '3'] : Rat) / (10 : Rat) ^ (['2', '3'] : List Char).length) := rfl
    rw [h]
    have h1 : natOfDigits ['1'] = 1 := rfl
    have h2 : natOfDigits ['2', '3'] = 23 := rfl
    rw [h1, h2]
    norm_num

/-- C9: `unwrap` on the empty string returns `((-1,),)` (the space-split,
comma-split, empty-field-as-`-1` cascade step succeeds), so a `KEY=` line
parses to `((-1,),)`, while `wrap` renders an empty sequence as the empty
string for every key — hence the empty sequence does not round-trip. -/
theorem unwrap_empty_string_sentinel :
    unwrapValue "" = PyVal.seq [.seq [.int (-1)]]
    ∧ (∀ k : String, (unwrap k "").2 = PyVal.seq [.seq [.int (-1)]])
    ∧ parse_boulder_io "KEY=\n" = [("KEY", PyVal.seq [.seq [.int (-1)]])]
    ∧ (∀ (isdir : String → Bool) (k : String),
        wrap isdir k (PyVal.seq []) = .ok (.str ""))
    ∧ unwrapValue "" ≠ PyVal.seq [] := by
  refine ⟨by decide, fun k => by rfl, by decide, fun isdir k => rfl, by decide⟩

/-- C2 counterexample: `parse_boulder_io` does not yield raw string
values — the record `A=42` parses to the integer `42`, not the string
`"42"`, because `unwrap` is applied before storing. -/
theorem parse_value_not_raw_string_cex :
    parse_boulder_io "A=42\n" = [("A", PyVal.int 42)]
    ∧ PyVal.int 42 ≠ PyVal.str "42" := by
  exact ⟨by decide, by decide⟩

/-- C3 counterexample: a line whose value contains `'='` is not parsed
with everything after the first `'='` as the value — it is silently
dropped (three-way split); and the terminating bare `'='` line is not
skipped — it splits into two empty parts and stores an entry under the
empty key. -/
theorem parse_line_split_cex :
    parse_boulder_io "A=b=c\n" = []
    ∧ parse_boulder_io "=\n" = [("", PyVal.seq [.seq [.int (-1)]])] := by
  exact ⟨by decide, by decide⟩

/-- C7 counterexample: `parse_multirecord_boulder_io` does not split only
on lines containing exactly `'='` — on an input with no such line (one
line even ends in `'='` mid-record) it still splits, yielding two
mappings where the claim implies a single chunk. -/
theorem parse_multirecord_split_cex :
    (pySplitC '\n' "A=x=\nB=1\n").all (fun l => !(l = "=" || l = "=\r")) = true
    ∧ parse_multirecord_boulder_io "A=x=\nB=1\n"
        = [[("A", PyVal.str "x")], [("B", PyVal.int 1)]] := by
  exact ⟨by decide, by decide⟩

/-- C4: the path-resolution branch of `_wrap_path_fix` can never strip a
leading `'./'` or `'../'` marker — the source compares the one-character
slice `v[0:1]` with the two-character string `'./'` and the two-character
slice `v[0:2]` with `'../'`, which are always false — so a non-existing
value is joined to `LIBPRIMER3_DIR` verbatim: where the spec's stripped
path `LIBPRIMER3_DIR/primer3_config` exists, the code still fails, and
the reported path retains the marker. -/
theorem wrap_path_fix_never_strips :
    (∀ v : String, pySlice v 0 1 ≠ "./")
    ∧ (∀ v : String, pySlice v 0 2 ≠ "../")
    ∧ wrapPathFix (fun p => p = pyPathJoin LIBPRIMER3_DIR "primer3_config")
        "PRIMER_THERMODYNAMIC_PARAMETERS_PATH" "../primer3_config"
      = .error
        "PRIMER_THERMODYNAMIC_PARAMETERS_PATH: path /opt/primer3/src/libprimer3/../primer3_config not found"
    ∧ wrapPathFix noDirs "PRIMER_THERMODYNAMIC_PARAMETERS_PATH" "./primer3_config/"
      = .error
        "PRIMER_THERMODYNAMIC_PARAMETERS_PATH: path /opt/primer3/src/libprimer3/./primer3_config/ not found" := by
  refine ⟨?_, ?_, by decide, by decide⟩
  · intro v h
    have h2 : (v.data.take 1).drop 0 = ['.', '/'] := by
      have h3 := congrArg String.data h
      simpa [pySlice] using h3
    have h4 := congrArg List.length h2
    simp [List.length_take] at h4
    omega
  · intro v h
    have h2 : (v.data.take 2).drop 0 = ['.', '.', '/'] := by
      have h3 := congrArg String.data h
      simpa [pySlice] using h3
    have h4 := congrArg List.length h2
    simp [List.length_take] at h4
    omega

/-- Clamping negatives to `-1` does not change the `try`-branch rendering
of a flat (all-integer) argument: every integer quad is non-iterable. -/
theorem quadTry_int_norm (xs : List Int) :
    listMapOpt quadTry (xs.map .int)
      = listMapOpt quadTry ((xs.map fun n => if n ≤ -1 then -1 else n).map .int) := by
  rw [listMapOpt_map, listMapOpt_map, listMapOpt_map]
  exact listMapOpt_congr xs fun x _ => rfl

/-- Clamping negatives to `-1` does not change flat slot rendering. -/
theorem quadNumStr_int_norm (xs : List Int) :
    listMapOpt quadNumStr (xs.map .int)
      = listMapOpt quadNumStr ((xs.map fun n => if n ≤ -1 then -1 else n).map .int) := by
  rw [listMapOpt_map, listMapOpt_map, listMapOpt_map]
  exact listMapOpt_congr xs fun x _ => (quadNumStr_norm x).symm

/-- Clamping negatives to `-1` does not change the `try`-branch rendering
of a list of integer quadruples. -/
theorem quadTry_seq_norm (xss : List (List Int)) :
    listMapOpt quadTry (xss.map fun q => PyVal.seq (q.map .int))
      = listMapOpt quadTry
          ((xss.map fun q => q.map fun n => if n ≤ -1 then -1 else n).map
            fun q => PyVal.seq (q.map .int)) := by
  rw [listMapOpt_map, listMapOpt_map, listMapOpt_map]
  refine listMapOpt_congr xss fun q _ => ?_
  show (listMapOpt quadNumStr (q.map .int)).map (pyJoinC ',')
    = (listMapOpt quadNumStr ((q.map fun n => if n ≤ -1 then -1 else n).map .int)).map
        (pyJoinC ',')
  rw [quadNumStr_int_norm q]

/-- Clamping negatives to `-1` does not change the flat-branch failure on
a list of quadruples (every sequence raises in the flat branch). -/
theorem quadNumStr_seq_norm (xss : List (List Int)) :
    listMapOpt quadNumStr (xss.map fun q => PyVal.seq (q.map .int))
      = listMapOpt quadNumStr
          ((xss.map fun q => q.map fun n => if n ≤ -1 then -1 else n).map
            fun q => PyVal.seq (q.map .int)) := by
  rw [listMapOpt_map, listMapOpt_map, listMapOpt_map]
  exact listMapOpt_congr xss fun q _ => rfl

/-- C10: in `wrap_list_of_quads` every integer slot whose value is `≤ -1`
(any negative integer, not only the `-1` sentinel) renders as an empty
field, in both the flat single-quadruple branch and the
list-of-quadruples branch: the slot renderer blanks every such value,
clamping negatives to `-1` never changes the output, and concrete
negative slots print as empty fields. -/
theorem quad_negative_renders_blank :
    (∀ n : Int, n ≤ -1 → quadNumStr (.int n) = some "")
    ∧ (∀ xs : List Int,
        wrap_list_of_quads (xs.map .int)
          = wrap_list_of_quads ((xs.map fun n => if n ≤ -1 then -1 else n).map .int))
    ∧ (∀ xss : List (List Int),
        wrap_list_of_quads (xss.map fun q => PyVal.seq (q.map .int))
          = wrap_list_of_quads
              ((xss.map fun q => q.map fun n => if n ≤ -1 then -1 else n).map
                fun q => PyVal.seq (q.map .int)))
    ∧ wrap_list_of_quads [.int 1, .int (-5), .int 3, .int 4] = .ok "1,,3,4"
    ∧ wrap_list_of_quads
        [.seq [.int 1, .int 2, .int 3, .int 4],
         .seq [.int 5, .int 6, .int (-7), .int (-2)]]
      = .ok "1,2,3,4 ; 5,6,," := by
  refine ⟨?_, ?_, ?_, by decide, by decide⟩
  · intro n h
    have h2 : ¬(n > -1) := by omega
    simp [quadNumStr, h2]
  · intro xs
    unfold wrap_list_of_quads
    rw [quadTry_int_norm xs, quadNumStr_int_norm xs]
  · intro xss
    unfold wrap_list_of_quads
    rw [quadTry_seq_norm xss, quadNumStr_seq_norm xss]

/-- C10 witness: the slot renderer at the concrete negative value `-5`. -/
theorem quad_negative_renders_blank_witness :
    quadNumStr (PyVal.int (-5)) = some "" :=
  quad_negative_renders_blank.1 (-5) (by norm_num)

/-- Whenever some entry of the argument mapping fails to format, the
formatting loop returns the `transform error` of such a failing entry —
it never skips the failure and never returns an output list. -/
theorem formatLines_abort_spec (isdir : String → Bool) :
    ∀ args : List (String × PyVal),
      (∃ p ∈ args, (formatEntry isdir p.1 p.2).isOk = false) →
        ∃ p ∈ args, (formatEntry isdir p.1 p.2).isOk = false
          ∧ formatLines isdir args = .error (transformMsg p.1 p.2) := by
  intro args
  induction args with
  | nil =>
    intro h
    simp at h
  | cons kv rest ih =>
    intro h
    obtain ⟨k, v⟩ := kv
    cases hfe : formatEntry isdir k v with
    | error err =>
      refine ⟨(k, v), List.mem_cons_self _ _, by rw [hfe]; rfl, ?_⟩
      unfold formatLines
      rw [hfe]
    | ok ls =>
      have hrest : ∃ p ∈ rest, (formatEntry isdir p.1 p.2).isOk = false := by
        obtain ⟨p, hp, hfail⟩ := h
        rcases List.mem_cons.mp hp with heq | hmem
        · rw [heq] at hfail
          simp [hfe, Except.isOk, Except.toBool] at hfail
        · exact ⟨p, hmem, hfail⟩
      obtain ⟨p, hp, hfail, hfl⟩ := ih hrest
      refine ⟨p, List.mem_cons_of_mem _ hp, hfail, ?_⟩
      unfold formatLines
      rw [hfe, hfl]
      rfl

/-- C6: if formatting any key's value fails, `format_boulder_io` aborts
the whole record — the result is the `transform error` naming the
offending key, the value, and the value's type, and no (partial) boulder
record is returned; conversely any returned error is such a message; and
on success the output ends with a final line containing only `=` (the
returned string being the UTF-8 decoding of the emitted bytes). -/
theorem format_abort_and_terminator :
    (∀ (isdir : String → Bool) (args : List (String × PyVal)),
        (∃ p ∈ args, (formatEntry isdir p.1 p.2).isOk = false) →
          ∃ p ∈ args, (formatEntry isdir p.1 p.2).isOk = false
            ∧ format_boulder_io isdir args = .error (transformMsg p.1 p.2))
    ∧ (∀ (isdir : String → Bool) (args : List (String × PyVal)) (e : String),
        format_boulder_io isdir args = .error e →
          ∃ p ∈ args, (formatEntry isdir p.1 p.2).isOk = false
            ∧ e = transformMsg p.1 p.2)
    ∧ (∀ (isdir : String → Bool) (args : List (String × PyVal)) (s : String),
        format_boulder_io isdir args = .ok s → ∃ t : String, s = t ++ "=\n") := by
  refine ⟨?_, ?_, ?_⟩
  · intro isdir args h
    obtain ⟨p, hp, hfail, hfl⟩ := formatLines_abort_spec isdir args h
    refine ⟨p, hp, hfail, ?_⟩
    unfold format_boulder_io
    rw [hfl]
    rfl
  · intro isdir args e h
    unfold format_boulder_io at h
    cases hfl : formatLines isdir args with
    | error e' =>
      have he : e' = e := by
        rw [hfl] at h
        simpa [Except.map] using h
      exact formatLines_error_spec _ _ _ (by rw [hfl, he])
    | ok ls =>
      rw [hfl] at h
      exact absurd h (by simp [Except.map])
  · intro isdir args s h
    unfold format_boulder_io at h
    cases hfl : formatLines isdir args with
    | error e' =>
      rw [hfl] at h
      exact absurd h (by simp [Except.map])
    | ok ls =>
      rw [hfl] at h
      refine ⟨String.join ls, ?_⟩
      have hs : String.join ls ++ "=\n" = s := by
        simpa [Except.map] using h
      exact hs.symm

/-- C6 witness: a concrete mapping with a failing entry is aborted with
the `transform error` of that entry (no output is produced), any error
returned on it is such a message, and a concrete succeeding mapping's
output ends with the bare `=` line. -/
theorem format_abort_and_terminator_witness :
    (∃ p ∈ ([("SEQUENCE_TARGET", PyVal.seq [.str "a", .str "b"])] :
          List (String × PyVal)),
        (formatEntry noDirs p.1 p.2).isOk = false
        ∧ format_boulder_io noDirs [("SEQUENCE_TARGET", PyVal.seq [.str "a", .str "b"])]
            = .error (transformMsg p.1 p.2))
    ∧ (∃ p ∈ ([("SEQUENCE_TARGET", PyVal.seq [.str "a", .str "b"])] :
          List (String × PyVal)),
        (formatEntry noDirs p.1 p.2).isOk = false
        ∧ "transform error: SEQUENCE_TARGET | ['a', 'b'] | <class 'list'>"
            = transformMsg p.1 p.2)
    ∧ (∃ t : String, "SEQUENCE_ID=X\n=\n" = t ++ "=\n") := by
  refine ⟨?_, ?_, ?_⟩
  · exact format_abort_and_terminator.1 noDirs
      [("SEQUENCE_TARGET", PyVal.seq [.str "a", .str "b"])] (by decide)
  · exact format_abort_and_terminator.2.1 noDirs
      [("SEQUENCE_TARGET", PyVal.seq [.str "a", .str "b"])]
      "transform error: SEQUENCE_TARGET | ['a', 'b'] | <class 'list'>" (by decide)
  · exact format_abort_and_terminator.2.2 noDirs
      [("SEQUENCE_ID", PyVal.str "X")] "SEQUENCE_ID=X\n=\n" (by decide)

/-- A clean `key=value` body contains no newline character. -/
theorem line_no_newline {k v : String} (hk : cleanChars k = true)
    (hv : cleanChars v = true) :
    ∀ x ∈ k.data ++ '=' :: v.data, x ≠ '\n' := by
  intro x hx
  rcases List.mem_append.mp hx with h | h
  · exact ((cleanChars_spec hk) x h).2.1
  · rcases List.mem_cons.mp h with h | h
    · subst h; decide
    · exact ((cleanChars_spec hv) x h).2.1

/-- C2 (amended): `parse_boulder_io` applies the Type Parser (`unwrap`)
to each value as it stores it — the parsed mapping holds converted
values, not raw strings, and there is no separate raw-string pass. -/
theorem parse_stores_unwrapped (k v : String) (hk : cleanChars k = true)
    (hv : cleanChars v = true) (hkey : TAGS_APPEND.contains k = false) :
    parse_boulder_io (k ++ "=" ++ v ++ "\n") = [(k, unwrapValue v)] := by
  have hdata : (k ++ "=" ++ v ++ "\n").data
      = (k.data ++ '=' :: v.data) ++ '\n' :: ([] : List Char) := by
    simp [string_data_append]
  unfold parse_boulder_io parseRecordLines
  simp only [pySplitC]
  rw [hdata, splitOn_append_sep _ (line_no_newline hk hv), List.splitOn_nil]
  simp only [List.map, List.foldl]
  rw [parseLine_eq_two (pySplitC_line k v hk hv) hkey]
  rfl

/-- C2 witness: a concrete record line stores a converted integer. -/
theorem parse_stores_unwrapped_witness :
    parse_boulder_io "PRIMER_OPT_SIZE=20\n" = [("PRIMER_OPT_SIZE", PyVal.int 20)] := by
  have h := parse_stores_unwrapped "PRIMER_OPT_SIZE" "20"
    (by decide) (by decide) (by decide)
  exact h.trans (by decide)

/-- C3 (amended): `parse_boulder_io` decodes as UTF-8 (modeled as the
identity) and splits each stripped line on every `'='` occurrence: only a
line producing exactly two parts binds a key and value (so a line whose
value itself contains `'='` is silently skipped rather than split at the
first `'='`), a line with no `'='` is silently skipped, and the bare
`'='` terminator line splits into two empty parts and stores an entry
under the empty key rather than being skipped. -/
theorem parse_line_split_behavior :
    (∀ (d : PyDict) (s : String),
        (pySplitC '=' (pyStrip s)).length ≠ 2 → parseLine d s = d)
    ∧ (∀ (d : PyDict) (s k v : String),
        pySplitC '=' (pyStrip s) = [k, v] → TAGS_APPEND.contains k = false →
          parseLine d s = dictSet d k (unwrapValue v))
    ∧ parse_boulder_io "A=b=c\nK=7\n" = [("K", PyVal.int 7)]
    ∧ parse_boulder_io "=\n" = [("", PyVal.seq [.seq [.int (-1)]])] :=
  ⟨fun _ _ h => parseLine_skip h,
   fun _ _ _ _ hs hk => parseLine_eq_two hs hk,
   by decide, by decide⟩

/-- C3 witness: a three-part line is skipped; a two-part line stores. -/
theorem parse_line_split_behavior_witness :
    parseLine [] "A=b=c" = [] ∧ parseLine [] "K=7" = dictSet [] "K" (unwrapValue "7") :=
  ⟨parse_line_split_behavior.1 [] "A=b=c" (by decide),
   parse_line_split_behavior.2.1 [] "K=7" "K" "7" (by decide) (by decide)⟩

/-- C8: a record in which a repeatable key (the only key classified
repeatable is `SEQUENCE_EXCLUDED_REGION`) appears on three separate lines
parses into one mapping entry holding the three unwrapped values in
original line order, rather than later lines overwriting earlier ones. -/
theorem repeatable_key_accumulates (k v1 v2 v3 : String)
    (hk : TAGS_APPEND.contains k = true) (h1 : cleanChars v1 = true)
    (h2 : cleanChars v2 = true) (h3 : cleanChars v3 = true) :
    parse_boulder_io
        ((k ++ "=" ++ v1 ++ "\n") ++ (k ++ "=" ++ v2 ++ "\n") ++ (k ++ "=" ++ v3 ++ "\n"))
      = [(k, PyVal.seq [unwrapValue v1, unwrapValue v2, unwrapValue v3])] := by
  have hkeq : k = "SEQUENCE_EXCLUDED_REGION" := by
    simpa [TAGS_APPEND] using hk
  subst hkeq
  have hck : cleanChars "SEQUENCE_EXCLUDED_REGION" = true := by decide
  have hdata :
      ((("SEQUENCE_EXCLUDED_REGION" ++ "=" ++ v1 ++ "\n")
        ++ ("SEQUENCE_EXCLUDED_REGION" ++ "=" ++ v2 ++ "\n"))
        ++ ("SEQUENCE_EXCLUDED_REGION" ++ "=" ++ v3 ++ "\n")).data
      = (("SEQUENCE_EXCLUDED_REGION" : String).data ++ '=' :: v1.data) ++ '\n' ::
        ((("SEQUENCE_EXCLUDED_REGION" : String).data ++ '=' :: v2.data) ++ '\n' ::
          ((("SEQUENCE_EXCLUDED_REGION" : String).data ++ '=' :: v3.data) ++ '\n' ::
            ([] : List Char))) := by
    simp [string_data_append]
  unfold parse_boulder_io parseRecordLines
  simp only [pySplitC]
  rw [hdata, splitOn_append_sep _ (line_no_newline hck h1),
    splitOn_append_sep _ (line_no_newline hck h2),
    splitOn_append_sep _ (line_no_newline hck h3), List.splitOn_nil]
  simp only [List.map, List.foldl]
  have hg1 : dictGet [] "SEQUENCE_EXCLUDED_REGION" = none := rfl
  have hg2 : dictGet
      (dictSet [] "SEQUENCE_EXCLUDED_REGION" (PyVal.seq [unwrapValue v1]))
      "SEQUENCE_EXCLUDED_REGION" = some (PyVal.seq [unwrapValue v1]) := rfl
  have hg3 : dictGet
      (dictSet
        (dictSet [] "SEQUENCE_EXCLUDED_REGION" (PyVal.seq [unwrapValue v1]))
        "SEQUENCE_EXCLUDED_REGION" (PyVal.seq ([unwrapValue v1] ++ [unwrapValue v2])))
      "SEQUENCE_EXCLUDED_REGION"
      = some (PyVal.seq ([unwrapValue v1] ++ [unwrapValue v2])) := rfl
  rw [parseLine_append_new (pySplitC_line _ v1 hck h1) hk hg1]
  rw [parseLine_append_more (pySplitC_line _ v2 hck h2) hk hg2]
  rw [parseLine_append_more (pySplitC_line _ v3 hck h3) hk hg3]
  rfl

/-- C8 witness: three `SEQUENCE_EXCLUDED_REGION` lines accumulate into a
3-element sequence in line order. -/
theorem repeatable_key_accumulates_witness :
    parse_boulder_io
        "SEQUENCE_EXCLUDED_REGION=5,7\nSEQUENCE_EXCLUDED_REGION=11,13\nSEQUENCE_EXCLUDED_REGION=2,3\n"
      = [("SEQUENCE_EXCLUDED_REGION",
          PyVal.seq [.seq [.int 5, .int 7], .seq [.int 11, .int 13],
                     .seq [.int 2, .int 3]])] := by
  have h := repeatable_key_accumulates "SEQUENCE_EXCLUDED_REGION" "5,7" "11,13" "2,3"
    (by decide) (by decide) (by decide) (by decide)
  exact h.trans (by decide)

/-- C7 (amended): the multirecord parser splits at every occurrence of
`'='` immediately followed by a newline (or CRLF) — that is, at any line
ending in `'='`, which in a well-formed stream are exactly the bare `'='`
terminator lines — applies the shared record-parsing loop to each
non-empty chunk, and returns the mappings in order; in particular a
stream of two records separated by bare `'='` lines yields exactly two
independently parsed mappings, with both LF and CRLF accepted. -/
theorem parse_multirecord_split_at_sep :
    (∀ r1 r2 : String, noRecSep r1.data = true → noRecSep r2.data = true →
        r1 ≠ "" → r2 ≠ "" →
        parse_multirecord_boulder_io (r1 ++ "=\n" ++ r2 ++ "=\n")
          = [parseRecordLines (pySplitC '\n' r1), parseRecordLines (pySplitC '\n' r2)])
    ∧ parse_multirecord_boulder_io "K=3\r\n=\r\nM=7\r\n=\r\n"
        = [[("K", PyVal.int 3)], [("M", PyVal.int 7)]] := by
  constructor
  · intro r1 r2 h1 h2 hne1 hne2
    unfold parse_multirecord_boulder_io
    rw [splitRecords_two r1 r2 h1 h2]
    simp [List.filterMap_cons, hne1, hne2]
  · decide

/-- C7 witness: a concrete two-record stream parses into exactly two
mappings, each independently parsed. -/
theorem parse_multirecord_split_at_sep_witness :
    parse_multirecord_boulder_io "K=3\nL=2,5\n=\nM=7\n=\n"
      = [[("K", PyVal.int 3), ("L", PyVal.seq [.int 2, .int 5])],
         [("M", PyVal.int 7)]] := by
  have h := parse_multirecord_split_at_sep.1 "K=3\nL=2,5\n" "M=7\n"
    (by decide) (by decide) (by decide) (by decide)
  exact h.trans (by decide)

/-- C5 witness: the integer result of `unwrap "42"` is not any float. -/
theorem unwrap_type_priority_witness :
    unwrapValue "42" ≠ PyVal.float (42 : Rat) :=
  unwrap_type_priority.2.2.1 (42 : Rat)

/-- C9 witness: the key-carrying form at a concrete key. -/
theorem unwrap_empty_string_sentinel_witness :
    (unwrap "SEQUENCE_ID" "").2 = PyVal.seq [.seq [.int (-1)]] :=
  unwrap_empty_string_sentinel.2.1 "SEQUENCE_ID"

/-- C4 witness: the dead slice comparisons at a concrete value. -/
theorem wrap_path_fix_never_strips_witness :
    pySlice "./primer3_config" 0 1 ≠ "./"
    ∧ pySlice "../primer3_config" 0 2 ≠ "../" :=
  ⟨wrap_path_fix_never_strips.1 "./primer3_config",
   wrap_path_fix_never_strips.2.1 "../primer3_config"⟩
